import Mathlib

/-!
# Verification of the pulse-application-layer background pipeline

Shallow embedding of the parts of the repository that the specification
claims talk about:

* `src/app/core/graph.py` — `GraphBuilder._add_nodes` / `_add_edges`
* `src/app/core/extraction.py` — `Extraction._chunk_text` and the
  relationship filter in `_extract_data_from_chunk`
* `src/app/worker/database.py` — `update_intake_status`,
  `schedule_retry`, `claim_intake_for_processing`
* `src/app/worker/processor.py` — `IntakeProcessor.process_intake`

Python strings are modelled as Lean `String`s (ASCII-faithful for
`lower`/`upper`/`title`/`strip`), Python dicts keyed by strings as
insertion-ordered association lists, Neo4j node/edge MERGE semantics as
explicit lookups on lists of node and edge records, and the relational
store as a list of intake records.  Exceptions are modelled with
`Except String`.
-/

namespace PulseApp

/-- ASCII whitespace, the characters Python's `str.strip()` removes
(space, tab, newline, carriage return, vertical tab, form feed). -/
def isPySpace (c : Char) : Bool :=
  c == ' ' || c == '\t' || c == '\n' || c == '\r' || c == Char.ofNat 11 || c == Char.ofNat 12

/-- Python `str.strip()` on a character list: drop whitespace from both ends. -/
def pyStripL (l : List Char) : List Char :=
  ((l.dropWhile isPySpace).reverse.dropWhile isPySpace).reverse

/-- Python `str.strip()`. -/
def pyStrip (s : String) : String := ⟨pyStripL s.data⟩

/-- Python `str.lower()` (ASCII letters). -/
def pyLower (s : String) : String := ⟨s.data.map Char.toLower⟩

/-- Python `str.upper()` (ASCII letters). -/
def pyUpper (s : String) : String := ⟨s.data.map Char.toUpper⟩

/-- Helper for Python `str.title()`: uppercase a letter that does not
follow a letter, lowercase a letter that does. -/
def pyTitleAux : Bool → List Char → List Char
  | _, [] => []
  | prevAlpha, c :: cs =>
    (if c.isAlpha then (if prevAlpha then c.toLower else c.toUpper) else c) :: pyTitleAux c.isAlpha cs

/-- Python `str.title()` (ASCII letters). -/
def pyTitle (s : String) : String := ⟨pyTitleAux false s.data⟩

/-- Python dict lookup `d.get(k)` on an insertion-ordered association list. -/
def dictGet {α : Type} (k : String) : List (String × α) → Option α
  | [] => none
  | (k2, v) :: rest => if k2 = k then some v else dictGet k rest

/-- Python dict assignment `d[k] = v`: replace in place if the key
exists (order preserved), otherwise append at the end. -/
def dictSet {α : Type} (k : String) (v : α) : List (String × α) → List (String × α)
  | [] => [(k, v)]
  | (k2, v2) :: rest => if k2 = k then (k, v) :: rest else (k2, v2) :: dictSet k v rest

/-! ## Graph model — `src/app/core/graph.py` -/

/-- An entity dict as consumed by `GraphBuilder._add_nodes`
(`entity.get("entity_name", "")`, `entity.get("entity_type") or ""`,
`entity.get("entity_description", "")`, `entity.get("topic", "")`).
A missing `topic` key is modelled by `""`, matching the code's use of
`entity.get("topic")` truthiness.  `relationship_strength` is never read
by the embedded code and is omitted. -/
structure PyEntity where
  entity_name : String
  entity_type : String
  entity_description : String
  topic : String
deriving DecidableEq

/-- A relationship dict as consumed by `GraphBuilder._add_edges` and the
relationship filter in `Extraction._extract_data_from_chunk`. -/
structure PyRel where
  source_entity : String
  target_entity : String
  relationship_type : String
  relationship_description : String
deriving DecidableEq

/-- The value stored in `GraphBuilder.entity_index` for one entity:
`{"type": etype, "description": desc}` plus `"topic"` for Events. -/
structure EntityMeta where
  type : String
  description : String
  topic : Option String
deriving DecidableEq

/-- A Neo4j node: label, `name` key, and the two properties the code
sets.  `none` models a property that is absent (Cypher `null`). -/
structure GNode where
  label : String
  name : String
  description : Option String
  event_count : Option Nat
deriving DecidableEq

/-- A Neo4j relationship with its endpoint node keys and its
`description` property. -/
structure GEdge where
  srcLabel : String
  src : String
  edgeType : String
  tgtLabel : String
  tgt : String
  description : Option String
deriving DecidableEq

/-- The state of the graph store together with the builder's in-memory
`entity_index` (an instance attribute, initialised once in
`GraphBuilder.__init__` and never cleared). -/
structure GraphState where
  nodes : List GNode
  edges : List GEdge
  entity_index : List (String × EntityMeta)
deriving DecidableEq

/-- The empty graph and a fresh builder (`entity_index = {}`). -/
def GraphState.init : GraphState := ⟨[], [], []⟩

/-- Cypher `MATCH (n:label {name: name})`: find the node with this label and name. -/
def findNode (nodes : List GNode) (label name : String) : Option GNode :=
  nodes.find? (fun n => n.label == label && n.name == name)

/-- Update the node with the given label and name, leave others unchanged. -/
def setNode (nodes : List GNode) (label name : String) (f : GNode → GNode) : List GNode :=
  nodes.map (fun n => if n.label == label && n.name == name then f n else n)

/-- Cypher `MERGE (n:etype {name: $name}) ON CREATE SET n.description = $desc
ON MATCH SET n.description = coalesce(n.description, $desc)`
(graph.py lines 108-113). -/
def mergeEntityNode (g : GraphState) (label name desc : String) : GraphState :=
  match findNode g.nodes label name with
  | none => { g with nodes := g.nodes ++ [⟨label, name, some desc, none⟩] }
  | some _ =>
      { g with
        nodes := setNode g.nodes label name
          (fun n => { n with description := some (n.description.getD desc) }) }

/-- Cypher `MERGE (tp:Topic {name: $topic}) ON CREATE SET tp.event_count = 0`
(graph.py lines 120-123). -/
def mergeTopicNode (g : GraphState) (topic : String) : GraphState :=
  match findNode g.nodes "Topic" topic with
  | none => { g with nodes := g.nodes ++ [⟨"Topic", topic, none, some 0⟩] }
  | some _ => g

/-- Cypher `MATCH (ev:Event {name: $event}), (tp:Topic {name: $topic})
MERGE (ev)-[:ABOUT]->(tp)
SET tp.event_count = coalesce(tp.event_count, 0) + 1`
(graph.py lines 126-130).  Note that the `SET` clause is unconditional:
it runs whether the `MERGE` created the edge or found it already
present. -/
def linkEventTopic (g : GraphState) (ev topic : String) : GraphState :=
  match findNode g.nodes "Event" ev, findNode g.nodes "Topic" topic with
  | some _, some _ =>
      let hasEdge := g.edges.any (fun e =>
        e.srcLabel == "Event" && e.src == ev && e.edgeType == "ABOUT" &&
          e.tgtLabel == "Topic" && e.tgt == topic)
      let g1 := if hasEdge then g
        else { g with edges := g.edges ++ [⟨"Event", ev, "ABOUT", "Topic", topic, none⟩] }
      { g1 with
        nodes := setNode g1.nodes "Topic" topic
          (fun n => { n with event_count := some (n.event_count.getD 0 + 1) }) }
  | _, _ => g

/-- Cypher `MATCH (tp:Topic {name: $topic}) RETURN tp.event_count AS count`
(graph.py lines 133-136): `none` if the Topic node does not exist or
its `event_count` property is null. -/
def topicCount (g : GraphState) (topic : String) : Option Nat :=
  (findNode g.nodes "Topic" topic).bind (fun n => n.event_count)

/-- One iteration of the loop in `GraphBuilder._add_nodes`
(graph.py lines 91-139): returns the new state and the topics appended
to `exceeded_topics` by this entity.  The overflow check flags the
topic when `result[0].get("count", 0) > 50`; at this point the Topic
node always exists and its count was just set, so the `none` branch of
`topicCount` is unreachable here. -/
def addNodesStep (g : GraphState) (e : PyEntity) : GraphState × List String :=
  let name := pyStrip (pyLower e.entity_name)
  let etype := pyTitle (pyStrip e.entity_type)
  if name = "" || etype = "" then (g, [])
  else
    let meta : EntityMeta :=
      if etype = "Event" then ⟨etype, e.entity_description, some (pyStrip (pyLower e.topic))⟩
      else ⟨etype, e.entity_description, none⟩
    let g1 := { g with entity_index := dictSet name meta g.entity_index }
    let g2 := mergeEntityNode g1 etype name e.entity_description
    if etype = "Event" && e.topic != "" then
      let topic := pyStrip (pyLower e.topic)
      let g3 := mergeTopicNode g2 topic
      let g4 := linkEventTopic g3 name topic
      match topicCount g4 topic with
      | some c => if 50 < c then (g4, [topic]) else (g4, [])
      | none => (g4, [])
    else (g2, [])

/-- Models `GraphBuilder._add_nodes` (graph.py lines 79-142) without the final
packaging: process the entities in order, concatenating the
`exceeded_topics` lists. -/
def addNodes (g : GraphState) : List PyEntity → GraphState × List String
  | [] => (g, [])
  | e :: es =>
    let p1 := addNodesStep g e
    let p2 := addNodes p1.1 es
    (p2.1, p1.2 ++ p2.2)

/-- The return value of `_add_nodes`:
`(len(exceeded_topics) > 0, exceeded_topics)`. -/
def addNodesRet (g : GraphState) (es : List PyEntity) : GraphState × Bool × List String :=
  let p := addNodes g es
  (p.1, !p.2.isEmpty, p.2)

/-- Table `rel_type_map` (graph.py lines 151-156). -/
def relTypeMap (t : String) : Option String :=
  if t = "PERFORMED" then some "PERFORMED"
  else if t = "DISCUSSING" then some "DISCUSSING"
  else if t = "OCCURRED_AT" then some "AT_TIME"
  else if t = "RELATED_TO" then some "RELATED_TO"
  else none

/-- Cypher `MERGE (a)-[r:neo_rel_type]->(b) ON CREATE SET r.description = $desc
ON MATCH SET r.description = coalesce(r.description, $desc)`
(graph.py lines 184-190), between the matched endpoint nodes. -/
def mergeEdge (g : GraphState) (sLabel src eType tLabel tgt desc : String) : GraphState :=
  let key := fun (e : GEdge) =>
    e.srcLabel == sLabel && e.src == src && e.edgeType == eType &&
      e.tgtLabel == tLabel && e.tgt == tgt
  match g.edges.find? key with
  | none => { g with edges := g.edges ++ [⟨sLabel, src, eType, tLabel, tgt, some desc⟩] }
  | some _ =>
      { g with edges := g.edges.map (fun e =>
          if key e then { e with description := some (e.description.getD desc) } else e) }

/-- One iteration of the loop in `GraphBuilder._add_edges`
(graph.py lines 158-193): skip when source or target is empty, when
either endpoint is missing from `entity_index`, or when the
relationship type is not in `rel_type_map`; otherwise merge the edge
between the nodes labelled by the indexed entity types. -/
def addEdgeStep (g : GraphState) (r : PyRel) : GraphState :=
  let src := pyStrip (pyLower r.source_entity)
  let tgt := pyStrip (pyLower r.target_entity)
  let desc := r.relationship_description
  let rtype := pyUpper (pyStrip r.relationship_type)
  if src = "" || tgt = "" then g
  else
    match dictGet src g.entity_index, dictGet tgt g.entity_index with
    | some sm, some tm =>
        match relTypeMap rtype with
        | none => g
        | some nrt =>
            match findNode g.nodes sm.type src, findNode g.nodes tm.type tgt with
            | some _, some _ => mergeEdge g sm.type src nrt tm.type tgt desc
            | _, _ => g
    | _, _ => g

/-- Models `GraphBuilder._add_edges` (graph.py lines 144-195). -/
def addEdges (g : GraphState) (rels : List PyRel) : GraphState :=
  rels.foldl addEdgeStep g

/-! ## Extraction model — `src/app/core/extraction.py` -/

/-- Python `text.find(c, start)`: index of the first occurrence of `c`
at or after `start`, `none` for `-1`. -/
def pyFindFrom (text : List Char) (c : Char) (start : Nat) : Option Nat :=
  match (text.drop start).findIdx? (· == c) with
  | some i => some (start + i)
  | none => none

/-- The adjusted window end of `_chunk_text` (extraction.py lines
94-96): the tentative end `start + chunk_size` is extended to just past
the next `'.'` when one occurs at or after it. -/
def chunkEnd (text : List Char) (chunkSize start : Nat) : Nat :=
  match pyFindFrom text '.' (start + chunkSize) with
  | some p => p + 1
  | none => start + chunkSize

/-- The loop of `Extraction._chunk_text` (extraction.py lines 87-100),
with an explicit fuel argument: `start < len(text)` guards the loop;
a tentative window that does not reach the end of the text is extended
by `chunkEnd`; every appended chunk is `strip()`ped; the final chunk
takes the remaining text.  The fuel only bounds recursion depth:
`chunkText` below supplies enough fuel for every `chunk_size ≥ 1`
(with `chunk_size = 0` the Python loop would not terminate). -/
def chunkTextAux (text : List Char) (chunkSize : Nat) : Nat → Nat → List (List Char)
  | 0, _ => []
  | fuel + 1, start =>
    if start < text.length then
      if text.length ≤ start + chunkSize then [pyStripL (text.drop start)]
      else
        pyStripL ((text.drop start).take (chunkEnd text chunkSize start - start)) ::
          chunkTextAux text chunkSize fuel (chunkEnd text chunkSize start)
    else []

/-- Models `Extraction._chunk_text` (extraction.py lines 72-104); the default
`chunk_size` in the source is 1000. -/
def chunkText (text : List Char) (chunkSize : Nat) : List (List Char) :=
  chunkTextAux text chunkSize (text.length + 1) 0

/-- The set of Topic names built in `_extract_data_from_chunk`
(extraction.py lines 147-151): `(e.get("entity_name") or "").strip().lower()`
for every entity whose `(e.get("entity_type") or "").strip().lower()`
is `"topic"`. -/
def topicNames (entities : List PyEntity) : List String :=
  entities.filterMap (fun e =>
    if pyLower (pyStrip e.entity_type) = "topic" then some (pyLower (pyStrip e.entity_name))
    else none)

/-- The predicate of the relationship list comprehension
(extraction.py lines 153-163): a relationship is kept unless its type
is `RELATED_TO` and (its target is a Topic name of the same chunk, or
its source equals its target). -/
def keepRel (topics : List String) (r : PyRel) : Bool :=
  !(pyUpper (pyStrip r.relationship_type) == "RELATED_TO" &&
    (topics.contains (pyLower (pyStrip r.target_entity)) ||
      pyLower (pyStrip r.source_entity) == pyLower (pyStrip r.target_entity)))

/-- The relationship filter of `_extract_data_from_chunk`
(extraction.py lines 146-163). -/
def filterRelationships (entities : List PyEntity) (rels : List PyRel) : List PyRel :=
  rels.filter (keepRel (topicNames entities))

/-! ## Intake repository model — `src/app/worker/database.py`

Timestamps are modelled as integers (seconds); `datetime.now()` is an
explicit `now` argument.  A `datetime` value is always truthy in
Python, so the `if next_retry_at:` guard is modelled by `Option.isSome`;
`if error_message:` is falsy for both `None` and `""`. -/

/-- One row of the `intakes` table (columns as read and written by the
worker). -/
structure IntakeRec where
  id : String
  org_id : String
  status : String
  storage_path : String
  checksum : String
  size_bytes : Nat
  idempotency_key : String
  attempts : Nat
  next_retry_at : Int
  last_error : Option String
  created_at : Int
  updated_at : Int
deriving DecidableEq

/-- The field update applied by `WorkerDatabase.update_intake_status`
(database.py lines 92-139) to a row matched by `id`: always sets
`status` and `updated_at`; sets `last_error` only if `error_message` is
truthy (non-`None`, non-empty); sets `attempts` only if it `is not
None`; sets `next_retry_at` only if the datetime is given. -/
def applyUpdate (now : Int) (r : IntakeRec) (status : String)
    (error_message : Option String) (attempts : Option Nat)
    (next_retry_at : Option Int) : IntakeRec :=
  { r with
    status := status
    updated_at := now
    last_error :=
      match error_message with
      | some e => if e = "" then r.last_error else some e
      | none => r.last_error
    attempts := attempts.getD r.attempts
    next_retry_at := next_retry_at.getD r.next_retry_at }

/-- Function `update_intake_status` over the whole table: the update statement
carries `.eq("id", intake_id)`, so exactly the rows with this id are
rewritten. -/
def dbUpdateIntakeStatus (now : Int) (db : List IntakeRec) (intake_id status : String)
    (error_message : Option String) (attempts : Option Nat)
    (next_retry_at : Option Int) : List IntakeRec :=
  db.map (fun r =>
    if r.id = intake_id then applyUpdate now r status error_message attempts next_retry_at
    else r)

/-- Models `WorkerDatabase.schedule_retry` (database.py lines 141-197) acting
on the row named by `intake_id`.  When `max_attempts` or
`base_delay_seconds` is `None`, the source reads
`config.worker_max_retry_attempts` / `config.worker_base_retry_delay`;
the `Config` class in `src/app/core/config.py` defines neither
attribute, so that read raises `AttributeError`, which the function's
own `try/except` catches, returning `False` with no update.  With both
supplied: `new_attempts = current_attempts + 1`; at or above
`max_attempts` the row becomes terminal `failed_max_attempts` with the
formatted error; otherwise the row reverts to `ready` with
`next_retry_at = now + base_delay * 2 ^ (new_attempts - 1)`. -/
def scheduleRetry (now : Int) (r : IntakeRec) (current_attempts : Nat)
    (error_message : String) (max_attempts : Option Nat)
    (base_delay_seconds : Option Nat) : Bool × IntakeRec :=
  match max_attempts, base_delay_seconds with
  | some m, some b =>
      let newAttempts := current_attempts + 1
      if m ≤ newAttempts then
        (true, applyUpdate now r "failed_max_attempts"
          (some ("Exceeded maximum attempts (" ++ Nat.repr m ++ "). Last error: " ++ error_message))
          (some newAttempts) none)
      else
        (true, applyUpdate now r "ready" (some error_message) (some newAttempts)
          (some (now + Int.ofNat (b * 2 ^ (newAttempts - 1)))))
  | _, _ => (false, r)

/-- Does a row satisfy the `claim_intake_for_processing` condition
`.eq("id", intake_id).eq("org_id", org_id).eq("status", "ready")`? -/
def claimMatches (intake_id org_id : String) (r : IntakeRec) : Bool :=
  r.id == intake_id && r.org_id == org_id && r.status == "ready"

/-- Models `WorkerDatabase.claim_intake_for_processing` (database.py lines
59-90): the conditional update sets `status = "processing"` and
`updated_at` on every row satisfying the condition, and the call
returns `True` exactly when at least one row was updated. -/
def dbClaim (now : Int) (db : List IntakeRec) (intake_id org_id : String) :
    Bool × List IntakeRec :=
  (db.any (claimMatches intake_id org_id),
    db.map (fun r =>
      if claimMatches intake_id org_id r then { r with status := "processing", updated_at := now }
      else r))

/-- Sequential runs of `n` claim attempts on `(intake_id, org_id)`, one after
another (the conditional update is atomic, so concurrent attempts
serialise): returns how many succeeded and the final table. -/
def dbClaimN (now : Int) (intake_id org_id : String) :
    Nat → List IntakeRec → Nat × List IntakeRec
  | 0, db => (0, db)
  | n + 1, db =>
    let p := dbClaim now db intake_id org_id
    let q := dbClaimN now intake_id org_id n p.2
    ((if p.1 then 1 else 0) + q.1, q.2)

/-! ## Intake processor model — `src/app/worker/processor.py`

`IntakeProcessor.process_intake` (lines 34-170) runs a `try` block of
six steps, an `except Exception` handler that calls
`schedule_retry(intake_id, attempts, msg)` (with the `max_attempts` and
`base_delay_seconds` defaults) and returns `False`, and a `finally`
block `if self.pulse_api_client: ... close() ...`.

Facts about the source that the model hard-codes, each a plain read of
the named file:

* `src/app/core/config.py`, `class Config.__init__` sets only
  `supabase_url`, `supabase_key`, `secrets`, `tenant_id`; the class has
  no `default_org_id` attribute, no `get_pulse_api_config` method, and
  no `worker_max_retry_attempts` / `worker_base_retry_delay`
  attributes.  Reading a missing attribute raises `AttributeError`.
* `src/app/service/pulse_api.py`, `PulseAPIClient.__init__` has
  signature `(self, base_url, org_name)`, while processor.py line 80
  calls `PulseAPIClient(base_url=..., org_id=org_id)`: the unexpected
  keyword argument raises `TypeError`.
* `IntakeProcessor.__init__` (lines 22-32) sets `client`, `db`,
  `storage`, `config` — it never initialises `pulse_api_client`, so
  `self.pulse_api_client` raises `AttributeError` until step 3 of some
  call assigns it.

External services (supabase, storage, the pulse HTTP API) are
nondeterministic and modelled by a `StepOracle` of call results. -/

/-- Attribute `Config().default_org_id` read by processor.py line 55: the
attribute does not exist (`none` = `AttributeError` on access). -/
def configDefaultOrgId : Option String := none

/-- Method `Config().get_pulse_api_config()` called by processor.py line 79:
the method does not exist (`none` = `AttributeError` on access). -/
def configPulseApiConfig : Option String := none

/-- Call `PulseAPIClient(base_url=..., org_id=org_id)` at processor.py line
80: the constructor takes `(base_url, org_name)`, so this call raises
`TypeError: unexpected keyword argument org_id` — it never returns. -/
def pulseClientCtorOk : Bool := false

/-- One row of the `memories` table as inserted by
`WorkerDatabase.create_memory` (database.py lines 199-233); the random
uuid and json metadata are not needed by any claim. -/
structure MemRec where
  intake_id : String
  org_id : String
  title : String
  summary : String
deriving DecidableEq

/-- The state touched by one `process_intake` call: the intake row, the
`memories` table, and whether the processor instance already has a
`pulse_api_client` attribute. -/
structure World where
  intake : IntakeRec
  memories : List MemRec
  pulseClientSet : Bool
deriving DecidableEq

/-- Results of the external calls made by the pipeline steps.
`load_tenant_secrets`, `download_and_verify`, `create_memory` and
`update_intake_status` catch their own exceptions and return a
value, so they are plain results; `extract_content` is awaited inside
step 4's `try`, so it may also raise. -/
structure StepOracle where
  loadSecretsOk : Bool
  downloadResult : Option String
  extractResult : Except String (Option Bool)
  createMemoryOk : Bool
  updateDoneOk : Bool

/-- The effect of the processor's `schedule_retry(intake_id, attempts,
msg)` calls: both optional arguments are left at `None`, so
`schedule_retry` reads the missing config attributes, catches the
`AttributeError` itself and returns `False` without touching the row
(see `scheduleRetry`). -/
def scheduleRetryDefaults (now : Int) (w : World) (error_message : String) : World :=
  { w with intake := (scheduleRetry now w.intake w.intake.attempts error_message none none).2 }

/-- The `try` block of `process_intake` (processor.py lines 52-156):
step 1 reads `self.config.default_org_id` as its first statement, which
raises `AttributeError`; the remaining steps are modelled faithfully
but are unreachable behind that read (and behind the step-3
`TypeError`). -/
def processIntakeBody (now : Int) (ora : StepOracle) (w : World) :
    (Except String Bool) × World :=
  match configDefaultOrgId with
  | none => (Except.error "AttributeError: default_org_id", w)
  | some _ =>
    if !ora.loadSecretsOk then
      (Except.ok false, scheduleRetryDefaults now w "Failed to load tenant configuration")
    else
      match ora.downloadResult with
      | none => (Except.ok false, scheduleRetryDefaults now w "Failed to download or verify content")
      | some _content =>
        match configPulseApiConfig with
        | none =>
            (Except.ok false, scheduleRetryDefaults now w "Failed to initialize pulse API client")
        | some _baseUrl =>
          if !pulseClientCtorOk then
            (Except.ok false, scheduleRetryDefaults now w "Failed to initialize pulse API client")
          else
            let w1 := { w with pulseClientSet := true }
            match ora.extractResult with
            | Except.error _ =>
                (Except.ok false, scheduleRetryDefaults now w1 "Extraction API processing failed")
            | Except.ok none =>
                (Except.ok false, scheduleRetryDefaults now w1 "Extraction API processing failed")
            | Except.ok (some _res) =>
              if ora.createMemoryOk then
                let w2 := { w1 with
                  memories := w1.memories ++
                    [⟨w1.intake.id, w1.intake.org_id, "Document from storage",
                      "Processed document"⟩] }
                if ora.updateDoneOk then
                  (Except.ok true,
                    { w2 with intake := applyUpdate now w2.intake "done" none none none })
                else
                  (Except.ok false, scheduleRetryDefaults now w2 "Failed to update intake status to done")
              else
                (Except.ok false, scheduleRetryDefaults now w1 "Failed to create memory record")

/-- Models `IntakeProcessor.process_intake` (processor.py lines 34-170):
the `try` body, then the `except Exception` handler (schedule a retry
with default arguments and return `False`), then the `finally` block —
whose first expression `if self.pulse_api_client:` raises
`AttributeError` whenever the attribute was never assigned, replacing
the pending return value (the `close()` call inside it is wrapped in
its own `try/except` and cannot raise). -/
def processIntake (now : Int) (ora : StepOracle) (w : World) :
    (Except String Bool) × World :=
  let body := processIntakeBody now ora w
  let handled : (Except String Bool) × World :=
    match body.1 with
    | Except.error _ => (Except.ok false, scheduleRetryDefaults now body.2 "Unexpected error during processing")
    | Except.ok b => (Except.ok b, body.2)
  if handled.2.pulseClientSet then handled
  else (Except.error "AttributeError: pulse_api_client", handled.2)

/-! ## Sample inputs for concrete evaluations -/

/-- An Event entity used to exercise the merge twice. -/
def entC1 : PyEntity := ⟨"Meeting", "Event", "d", "Plans"⟩

/-- The graph after merging `entC1` once into an empty graph. -/
def stateC1a : GraphState := (addNodes GraphState.init [entC1]).1

/-- The graph after merging `entC1` a second time. -/
def stateC1b : GraphState := (addNodes stateC1a [entC1]).1

/-- The `i`-th distinct Event on topic `"t"`. -/
def mkEv (i : Nat) : PyEntity := ⟨"e" ++ Nat.repr i, "Event", "d", "t"⟩

/-- Fifty-one distinct Events on topic `"t"`. -/
def batch51 : List PyEntity := (List.range 51).map mkEv

/-- The state and overflow flags after merging `batch51` into an empty
graph. -/
def state51 : GraphState × List String := addNodes GraphState.init batch51

/-- An Actor entity merged in a first batch (chunk 1). -/
def actorChunk1 : PyEntity := ⟨"Alice", "Actor", "a person", ""⟩

/-- An Event entity merged in a second batch (chunk 2). -/
def eventChunk2 : PyEntity := ⟨"Meet", "Event", "a meeting", "t"⟩

/-- The graph after the two single-entity batches. -/
def stateTwoChunks : GraphState :=
  (addNodes (addNodes GraphState.init [actorChunk1]).1 [eventChunk2]).1

/-- A relationship between an entity of chunk 1 and an entity of
chunk 2. -/
def relAcrossChunks : PyRel := ⟨"Alice", "Meet", "PERFORMED", "performed desc"⟩

/-- A self-referential non-`RELATED_TO` relationship. -/
def selfLoopPerformed : PyRel := ⟨"a", "a", "PERFORMED", "d"⟩

/-- A 1001-character text: 1000 letters followed by one space, so the
final window of the default 1000-character chunking is all
whitespace. -/
def text1001 : List Char := List.replicate 1000 'a' ++ [' ']

/-- A `ready` intake row. -/
def readyIntake : IntakeRec :=
  ⟨"i1", "o1", "ready", "org/o1/intake/i1/", "c", 10, "k", 2, 0, none, 0, 0⟩

/-- A `processing` intake row (just claimed). -/
def processingIntake : IntakeRec :=
  ⟨"i1", "o1", "processing", "org/o1/intake/i1/", "c", 10, "k", 0, 0, none, 0, 0⟩

/-- The world right after a fresh worker claims `readyIntake`: no
memories yet, and the processor instance has never assigned
`pulse_api_client` (it is not set in `IntakeProcessor.__init__`). -/
def freshWorld : World := ⟨processingIntake, [], false⟩

/-- An oracle in which every external call succeeds. -/
def allOkOracle : StepOracle := ⟨true, some "content", Except.ok (some true), true, true⟩

/-- A graph whose topic `"t"` is already past the overflow threshold
(51 linked events, represented summarily). -/
def overflowedState : GraphState :=
  ⟨[⟨"Event", "e0", some "d", none⟩, ⟨"Topic", "t", none, some 51⟩],
    [⟨"Event", "e0", "ABOUT", "Topic", "t", none⟩],
    [("e0", ⟨"Event", "d", some "t"⟩)]⟩

/-! ## Helper lemmas -/

theorem str_append_ne_empty (s t : String) (h : s ≠ "") : s ++ t ≠ "" := by
  intro he
  apply h
  have hd : (s ++ t).data = [] := by rw [he]
  rw [String.data_append] at hd
  rcases List.append_eq_nil.mp hd with ⟨h1, _⟩
  cases s
  simp_all

/-! ## C1 — graph entity merge idempotence -/

/-- **C1** (code_bug evidence).  Merging the Event entity `entC1` twice
with the same description leaves exactly one `Event` node carrying that
description and exactly one `ABOUT` edge, but the topic's `event_count`
goes from 1 to 2: the Cypher at graph.py lines 126-130 runs
`SET tp.event_count = ... + 1` unconditionally, so the count is
incremented again when the merge finds the edge already present,
contradicting the claim that it increases exactly once per newly
created edge and not on re-links. -/
theorem entity_merge_double_increments_event_count :
    stateC1b.nodes.filter (fun n => n.label == "Event" && n.name == "meeting") =
      [⟨"Event", "meeting", some "d", none⟩] ∧
    stateC1b.edges = [⟨"Event", "meeting", "ABOUT", "Topic", "plans", none⟩] ∧
    topicCount stateC1a "plans" = some 1 ∧
    topicCount stateC1b "plans" = some 2 := by decide

/-! ## C2 — retry scheduling -/

/-- **C2** (confirmed).  `schedule_retry` with explicit `max_attempts`
and `base_delay_seconds` stores `attempts = current + 1`; at or above
the maximum the status becomes terminal `failed_max_attempts` with the
error preserved inside the stored message; below it the status reverts
to `ready` with `next_retry_at = now + base_delay * 2 ^ current` and
the error recorded in `last_error`. -/
theorem schedule_retry_spec (now : Int) (r : IntakeRec) (a m b : Nat) (err : String) :
    ((scheduleRetry now r a err (some m) (some b)).2.attempts = a + 1) ∧
    (m ≤ a + 1 →
      (scheduleRetry now r a err (some m) (some b)).2.status = "failed_max_attempts" ∧
      (scheduleRetry now r a err (some m) (some b)).2.last_error =
        some ("Exceeded maximum attempts (" ++ Nat.repr m ++ "). Last error: " ++ err)) ∧
    (a + 1 < m →
      (scheduleRetry now r a err (some m) (some b)).2.status = "ready" ∧
      (scheduleRetry now r a err (some m) (some b)).2.next_retry_at =
        now + Int.ofNat (b * 2 ^ a) ∧
      (err ≠ "" → (scheduleRetry now r a err (some m) (some b)).2.last_error = some err)) := by
  have hmsg : ("Exceeded maximum attempts (" ++ Nat.repr m ++ "). Last error: " ++ err) ≠ "" :=
    str_append_ne_empty _ _ (str_append_ne_empty _ _ (str_append_ne_empty _ _ (by decide)))
  by_cases h : m ≤ a + 1
  · refine ⟨?_, fun _ => ⟨?_, ?_⟩, fun hlt => absurd h (by omega)⟩ <;>
      simp [scheduleRetry, applyUpdate, h, hmsg]
  · refine ⟨?_, fun hle => absurd hle h, fun _ => ⟨?_, ?_, fun herr => ?_⟩⟩
    · simp [scheduleRetry, applyUpdate, h]
    · simp [scheduleRetry, applyUpdate, h]
    · simp [scheduleRetry, applyUpdate, h]
    · simp [scheduleRetry, applyUpdate, h, herr]

/-- Witness for C2 at the two concrete calls named by the claim:
`a = 2, b = 60, m = 5` yields attempts 3, status `ready`,
`next_retry_at = now + 240`; `a = 4` yields attempts 5 and terminal
`failed_max_attempts`. -/
theorem schedule_retry_spec_witness :
    (scheduleRetry 0 readyIntake 2 "boom" (some 5) (some 60)).2.attempts = 3 ∧
    (scheduleRetry 0 readyIntake 2 "boom" (some 5) (some 60)).2.status = "ready" ∧
    (scheduleRetry 0 readyIntake 2 "boom" (some 5) (some 60)).2.next_retry_at = 240 ∧
    (scheduleRetry 0 readyIntake 2 "boom" (some 5) (some 60)).2.last_error = some "boom" ∧
    (scheduleRetry 0 readyIntake 4 "boom" (some 5) (some 60)).2.attempts = 5 ∧
    (scheduleRetry 0 readyIntake 4 "boom" (some 5) (some 60)).2.status =
      "failed_max_attempts" := by
  refine ⟨(schedule_retry_spec 0 readyIntake 2 5 60 "boom").1,
    ((schedule_retry_spec 0 readyIntake 2 5 60 "boom").2.2 (by omega)).1,
    ?_,
    ((schedule_retry_spec 0 readyIntake 2 5 60 "boom").2.2 (by omega)).2.2 (by decide),
    (schedule_retry_spec 0 readyIntake 4 5 60 "boom").1,
    ((schedule_retry_spec 0 readyIntake 4 5 60 "boom").2.1 (by omega)).1⟩
  have := ((schedule_retry_spec 0 readyIntake 2 5 60 "boom").2.2 (by omega)).2.1
  simpa using this

/-! ## C3 — atomic claim -/

theorem list_map_id_of {α : Type} (l : List α) (f : α → α) (h : ∀ a ∈ l, f a = a) :
    l.map f = l := by
  induction l with
  | nil => rfl
  | cons x xs ih => simp_all

/-- After a claim pass, no row still satisfies the claim condition
for the same `(intake_id, org_id)`. -/
theorem dbClaim_no_match_after (now : Int) (db : List IntakeRec) (i o : String) :
    ((dbClaim now db i o).2).any (claimMatches i o) = false := by
  rw [List.any_eq_false]
  intro x hx
  rw [dbClaim] at hx
  simp only [List.mem_map] at hx
  obtain ⟨a, _, rfl⟩ := hx
  cases hm : claimMatches i o a with
  | true =>
      have hpr : (("processing" : String) == "ready") = false := rfl
      simp [hm, claimMatches, hpr]
  | false => simp [hm]

/-- With no row satisfying the claim condition, any number of further
claim attempts all fail and the table is untouched. -/
theorem dbClaimN_none (now : Int) (i o : String) (db : List IntakeRec)
    (h : db.any (claimMatches i o) = false) :
    ∀ n, dbClaimN now i o n db = (0, db) := by
  have hmap : db.map (fun r =>
      if claimMatches i o r then { r with status := "processing", updated_at := now } else r) = db := by
    refine list_map_id_of _ _ (fun a ha => ?_)
    rw [List.any_eq_false] at h
    simp [h a ha]
  have h1 : dbClaim now db i o = (false, db) := by
    rw [dbClaim, hmap, h]
  intro n
  induction n with
  | zero => rfl
  | succ k ih => simp [dbClaimN, h1, ih]

/-- **C3** (confirmed).  The claim operation returns `true` iff some row
with the given id and org currently has status `ready`; on `false` the
table is completely unchanged; a matching `ready` row transitions to
`processing` (with `updated_at` refreshed) and non-matching rows stay
as they are; and among `n ≥ 1` claim attempts on the same intake,
exactly one succeeds. -/
theorem claim_intake_spec (now : Int) (db : List IntakeRec) (i o : String) :
    ((dbClaim now db i o).1 = true ↔ ∃ r ∈ db, r.id = i ∧ r.org_id = o ∧ r.status = "ready") ∧
    ((dbClaim now db i o).1 = false → (dbClaim now db i o).2 = db) ∧
    (∀ r ∈ db, claimMatches i o r = true →
      { r with status := "processing", updated_at := now } ∈ (dbClaim now db i o).2) ∧
    (∀ r ∈ db, claimMatches i o r = false → r ∈ (dbClaim now db i o).2) ∧
    (∀ n, 1 ≤ n → (dbClaim now db i o).1 = true → (dbClaimN now i o n db).1 = 1) := by
  refine ⟨?_, ?_, ?_, ?_, ?_⟩
  · simp [dbClaim, List.any_eq_true, claimMatches, and_assoc]
  · intro h
    rw [dbClaim] at h ⊢
    simp only at h
    refine list_map_id_of _ _ (fun a ha => ?_)
    rw [List.any_eq_false] at h
    simp [h a ha]
  · intro r hr hm
    have := List.mem_map_of_mem (fun r =>
      if claimMatches i o r then { r with status := "processing", updated_at := now } else r) hr
    simpa [dbClaim, hm] using this
  · intro r hr hm
    have := List.mem_map_of_mem (fun r =>
      if claimMatches i o r then { r with status := "processing", updated_at := now } else r) hr
    simpa [dbClaim, hm] using this
  · intro n h1 htrue
    obtain ⟨k, rfl⟩ : ∃ k, n = k + 1 := ⟨n - 1, by omega⟩
    have hafter := dbClaimN_none now i o (dbClaim now db i o).2 (dbClaim_no_match_after now db i o) k
    simp [dbClaimN, htrue, hafter]

/-- Witness for C3: on a table holding the single `ready` row
`readyIntake`, the first claim succeeds and three sequential attempts
produce exactly one success. -/
theorem claim_intake_spec_witness :
    (dbClaim 7 [readyIntake] "i1" "o1").1 = true ∧
    (dbClaimN 7 "i1" "o1" 3 [readyIntake]).1 = 1 := by
  have h := claim_intake_spec 7 [readyIntake] "i1" "o1"
  have hex : (dbClaim 7 [readyIntake] "i1" "o1").1 = true :=
    h.1.mpr ⟨readyIntake, by simp, rfl, rfl, rfl⟩
  exact ⟨hex, h.2.2.2.2 3 (by omega) hex⟩

/-! ## C4 / C7 — the processor pipeline -/

/-- **C4** (code_bug evidence).  `process_intake` can never write
anything: for every intake row, every memory table and every outcome of
the external calls, the state after the call equals the state before —
in particular no Memory record is ever created, no intake ever reaches
status `done`, and the call never reports success.  The first statement
of the `try` block reads the non-existent `Config.default_org_id`, so
steps 2-6 (including memory creation and the `done` transition) are
unreachable, and the claimed "Memory exists iff intake is done"
lifecycle can hold only vacuously. -/
theorem process_intake_writes_nothing (now : Int) (ora : StepOracle) (w : World) :
    (processIntake now ora w).2 = w ∧
    (processIntake now ora w).2.memories = w.memories ∧
    (processIntake now ora w).2.intake.status = w.intake.status ∧
    (processIntake now ora w).1 ≠ Except.ok true := by
  obtain ⟨ri, ms, pcs⟩ := w
  have h2 : (processIntake now ora ⟨ri, ms, pcs⟩).2 = ⟨ri, ms, pcs⟩ := by
    cases pcs <;>
      simp [processIntake, processIntakeBody, configDefaultOrgId, scheduleRetryDefaults,
        scheduleRetry]
  have h1 : (processIntake now ora ⟨ri, ms, pcs⟩).1 ≠ Except.ok true := by
    cases pcs <;>
      simp [processIntake, processIntakeBody, configDefaultOrgId, scheduleRetryDefaults,
        scheduleRetry]
  exact ⟨h2, by rw [h2], by rw [h2], h1⟩

/-- **C7** (code_bug evidence).  On any processor instance that has not
yet assigned `pulse_api_client` — which is every reachable instance,
since `__init__` does not set it and step 3 never completes — every
`process_intake` call propagates a raw `AttributeError` to its caller
(the scheduler's `_process_intake_safely`), whatever the external
calls return: the `finally` block's `if self.pulse_api_client:` raises,
contradicting the claim that no raw exception ever escapes
`process_intake`. -/
theorem process_intake_raises_attribute_error (now : Int) (ora : StepOracle) (w : World)
    (h : w.pulseClientSet = false) :
    (processIntake now ora w).1 = Except.error "AttributeError: pulse_api_client" := by
  simp [processIntake, processIntakeBody, configDefaultOrgId, scheduleRetryDefaults,
    scheduleRetry, h]

/-- Witness for C7: a freshly claimed intake on a fresh worker, with
every external call succeeding, still raises. -/
theorem process_intake_raises_attribute_error_witness :
    freshWorld.pulseClientSet = false ∧
    (processIntake 5 allOkOracle freshWorld).1 =
      Except.error "AttributeError: pulse_api_client" :=
  ⟨rfl, process_intake_raises_attribute_error 5 allOkOracle freshWorld rfl⟩

/-! ## C9 — chunking -/

theorem head?_dropWhile_not {α : Type} (p : α → Bool) (l : List α) :
    ∀ a, ((l.dropWhile p).head? = some a) → p a = false := by
  induction l with
  | nil => intro a ha; simp [List.dropWhile] at ha
  | cons c cs ih =>
    intro a ha
    rw [List.dropWhile_cons] at ha
    by_cases hc : p c
    · rw [if_pos hc] at ha; exact ih a ha
    · rw [if_neg hc] at ha
      simp only [List.head?_cons, Option.some.injEq] at ha
      subst ha
      exact Bool.not_eq_true _ ▸ (by simpa using hc)

theorem getLast?_dropWhile {α : Type} (p : α → Bool) (l : List α) (a : α)
    (h : (l.dropWhile p).getLast? = some a) : l.getLast? = some a := by
  induction l with
  | nil => simp [List.dropWhile] at h
  | cons c cs ih =>
    rw [List.dropWhile_cons] at h
    by_cases hc : p c
    · rw [if_pos hc] at h
      have hcs : cs.getLast? = some a := ih h
      have hne : cs ≠ [] := by intro he; subst he; simp at hcs
      obtain ⟨d, ds, rfl⟩ := List.exists_cons_of_ne_nil hne
      simpa [List.getLast?_cons_cons] using hcs
    · rwa [if_neg hc] at h

/-- The first character of a stripped list is not whitespace. -/
theorem pyStripL_head (l : List Char) (c : Char) (h : (pyStripL l).head? = some c) :
    isPySpace c = false := by
  rw [pyStripL, List.head?_reverse] at h
  have h2 := getLast?_dropWhile isPySpace _ _ h
  rw [List.getLast?_reverse] at h2
  exact head?_dropWhile_not isPySpace l c h2

/-- The last character of a stripped list is not whitespace. -/
theorem pyStripL_last (l : List Char) (c : Char) (h : (pyStripL l).getLast? = some c) :
    isPySpace c = false := by
  rw [pyStripL, List.getLast?_reverse] at h
  exact head?_dropWhile_not isPySpace _ c h

/-- Every chunk emitted by the chunking loop is the `strip()` of some
character list. -/
theorem chunkTextAux_mem (text : List Char) (csize : Nat) :
    ∀ fuel start c, c ∈ chunkTextAux text csize fuel start → ∃ l, c = pyStripL l := by
  intro fuel
  induction fuel with
  | zero => intro start c hc; simp [chunkTextAux] at hc
  | succ k ih =>
    intro start c hc
    rw [chunkTextAux] at hc
    split at hc
    · split at hc
      · simp only [List.mem_singleton] at hc
        exact ⟨_, hc⟩
      · simp only [List.mem_cons] at hc
        rcases hc with hc | hc
        · exact ⟨_, hc⟩
        · exact ih _ c hc
    · simp at hc

/-- **C9** (amended).  Every chunk returned by `_chunk_text` is trimmed
of surrounding whitespace: its first and last characters, when they
exist, are not whitespace.  (Emptiness, however, is not excluded — see
the counterexample.) -/
theorem chunks_trimmed (text : List Char) (csize : Nat) (c : List Char)
    (hc : c ∈ chunkText text csize) :
    (∀ h, c.head? = some h → isPySpace h = false) ∧
    (∀ h, c.getLast? = some h → isPySpace h = false) := by
  obtain ⟨l, rfl⟩ := chunkTextAux_mem text csize _ 0 c hc
  exact ⟨fun h hh => pyStripL_head l h hh, fun h hh => pyStripL_last l h hh⟩

/-- Witness for C9: the single chunk of a short padded text is trimmed. -/
theorem chunks_trimmed_witness :
    isPySpace 'a' = false ∧ isPySpace 'b' = false := by
  have h := chunks_trimmed "  ab ".data 10 ['a', 'b'] (by decide)
  exact ⟨h.1 'a' rfl, h.2 'b' rfl⟩

set_option maxRecDepth 40000 in
/-- **C9** (counterexample).  With the source's default
`chunk_size = 1000`, the 1001-character text `text1001` (1000 letters
then a space) produces two chunks, the second of which is empty: empty
chunks are appended to the result, not excluded, refuting "every chunk
is non-empty". -/
theorem empty_chunk_in_default_chunking :
    (chunkText text1001 1000).length = 2 ∧
    (chunkText text1001 1000).getLast? = some [] := by
  constructor <;> decide

/-! ## C10 — update_intake_status frame -/

/-- **C10** (confirmed).  `update_intake_status` modifies only `status`,
`updated_at` and the optional fields actually supplied: all other
columns of the row are untouched, `last_error` is untouched when
`error_message` is `None` or empty, `attempts` and `next_retry_at` are
untouched when not supplied; in particular marking a row `done` with no
error leaves `last_error` exactly as it was, and rows with a different
id are not modified at all. -/
theorem update_intake_status_frame (now : Int) (db : List IntakeRec) (i : String)
    (r : IntakeRec) (status : String) (err : Option String) (att : Option Nat)
    (nra : Option Int) :
    ((applyUpdate now r "done" none none none).last_error = r.last_error) ∧
    (applyUpdate now r status err att nra).id = r.id ∧
    (applyUpdate now r status err att nra).org_id = r.org_id ∧
    (applyUpdate now r status err att nra).storage_path = r.storage_path ∧
    (applyUpdate now r status err att nra).checksum = r.checksum ∧
    (applyUpdate now r status err att nra).size_bytes = r.size_bytes ∧
    (applyUpdate now r status err att nra).idempotency_key = r.idempotency_key ∧
    (applyUpdate now r status err att nra).created_at = r.created_at ∧
    (applyUpdate now r status err att nra).status = status ∧
    (applyUpdate now r status err att nra).updated_at = now ∧
    ((err = none ∨ err = some "") → (applyUpdate now r status err att nra).last_error = r.last_error) ∧
    (att = none → (applyUpdate now r status err att nra).attempts = r.attempts) ∧
    (nra = none → (applyUpdate now r status err att nra).next_retry_at = r.next_retry_at) ∧
    (∀ x ∈ db, x.id ≠ i → x ∈ dbUpdateIntakeStatus now db i status err att nra) := by
  refine ⟨rfl, rfl, rfl, rfl, rfl, rfl, rfl, rfl, rfl, rfl, ?_, ?_, ?_, ?_⟩
  · rintro (rfl | rfl) <;> simp [applyUpdate]
  · rintro rfl; rfl
  · rintro rfl; rfl
  · intro x hx hne
    have := List.mem_map_of_mem
      (fun r => if r.id = i then applyUpdate now r status err att nra else r) hx
    simpa [dbUpdateIntakeStatus, hne] using this

/-- Witness for C10: marking the sample row `done` with no error keeps
its `last_error`, and a supplied empty error string is also ignored. -/
theorem update_intake_status_frame_witness :
    (applyUpdate 9 readyIntake "done" none none none).last_error = readyIntake.last_error ∧
    (applyUpdate 9 readyIntake "done" (some "") none none).last_error = readyIntake.last_error :=
  ⟨(update_intake_status_frame 9 [] "i1" readyIntake "done" none none none).1,
    (update_intake_status_frame 9 [] "i1" readyIntake "done" (some "") none
      none).2.2.2.2.2.2.2.2.2.2.1 (Or.inr rfl)⟩

/-! ## C5 / C6 — graph helper lemmas -/

theorem dictGet_dictSet {α : Type} (k n : String) (v : α) (d : List (String × α)) :
    dictGet k (dictSet n v d) = if n = k then some v else dictGet k d := by
  induction d with
  | nil => by_cases hk : n = k <;> simp [dictSet, dictGet, hk]
  | cons p rest ih =>
    obtain ⟨k2, v2⟩ := p
    by_cases h2 : k2 = n
    · subst h2
      by_cases hk : k2 = k <;> simp [dictSet, dictGet, hk]
    · by_cases hk2 : k2 = k
      · subst hk2
        have hnk : ¬ n = k2 := fun he => h2 he.symm
        simp [dictSet, dictGet, h2, hnk]
      · simp [dictSet, dictGet, h2, hk2, ih]

theorem mergeEntityNode_index (g : GraphState) (l n d : String) :
    (mergeEntityNode g l n d).entity_index = g.entity_index := by
  unfold mergeEntityNode
  split <;> rfl

theorem mergeTopicNode_index (g : GraphState) (t : String) :
    (mergeTopicNode g t).entity_index = g.entity_index := by
  unfold mergeTopicNode
  split <;> rfl

theorem linkEventTopic_index (g : GraphState) (ev t : String) :
    (linkEventTopic g ev t).entity_index = g.entity_index := by
  unfold linkEventTopic
  split
  · dsimp only
    split <;> rfl
  · rfl

theorem addNodesStep_index_persists (g : GraphState) (e : PyEntity) (k : String)
    (h : (dictGet k g.entity_index).isSome) :
    (dictGet k (addNodesStep g e).1.entity_index).isSome := by
  have hset : ∀ (nm : String) (m : EntityMeta),
      (dictGet k (dictSet nm m g.entity_index)).isSome := by
    intro nm m
    rw [dictGet_dictSet]
    split
    · simp
    · exact h
  simp only [addNodesStep]
  split
  · exact h
  · split
    · split
      · split
        · simpa [linkEventTopic_index, mergeTopicNode_index, mergeEntityNode_index] using hset _ _
        · simpa [linkEventTopic_index, mergeTopicNode_index, mergeEntityNode_index] using hset _ _
      · simpa [linkEventTopic_index, mergeTopicNode_index, mergeEntityNode_index] using hset _ _
    · simpa [mergeEntityNode_index] using hset _ _

theorem addNodes_index_persists (es : List PyEntity) (g : GraphState) (k : String)
    (h : (dictGet k g.entity_index).isSome) :
    (dictGet k (addNodes g es).1.entity_index).isSome := by
  induction es generalizing g with
  | nil => exact h
  | cons e es ih =>
    simp only [addNodes]
    exact ih _ (addNodesStep_index_persists g e k h)

theorem addEdgeStep_skips_missing (g : GraphState) (r : PyRel)
    (h : dictGet (pyStrip (pyLower r.source_entity)) g.entity_index = none ∨
         dictGet (pyStrip (pyLower r.target_entity)) g.entity_index = none) :
    addEdgeStep g r = g := by
  unfold addEdgeStep
  dsimp only
  split
  · rfl
  · cases hds : dictGet (pyStrip (pyLower r.source_entity)) g.entity_index <;>
      cases hdt : dictGet (pyStrip (pyLower r.target_entity)) g.entity_index <;>
      simp_all

theorem findNode_pred {ns : List GNode} {l n : String} {x : GNode}
    (h : findNode ns l n = some x) : x.label = l ∧ x.name = n := by
  have hp := List.find?_some h
  simp only [Bool.and_eq_true, beq_iff_eq] at hp
  exact hp

theorem find?_cons_pos {α : Type} (p : α → Bool) (a : α) (l : List α) (h : p a = true) :
    List.find? p (a :: l) = some a := by
  simp [List.find?_cons, h]

theorem find?_cons_neg {α : Type} (p : α → Bool) (a : α) (l : List α) (h : p a = false) :
    List.find? p (a :: l) = List.find? p l := by
  simp [List.find?_cons, h]

theorem findNode_setNode (ns : List GNode) (l1 n1 l2 n2 : String) (f : GNode → GNode)
    (hf : ∀ x, (f x).label = x.label ∧ (f x).name = x.name) :
    findNode (setNode ns l1 n1 f) l2 n2 =
      (findNode ns l2 n2).map (fun x => if x.label == l1 && x.name == n1 then f x else x) := by
  induction ns with
  | nil => rfl
  | cons x xs ih =>
    unfold setNode findNode at *
    simp only [List.map_cons]
    by_cases h1 : (x.label == l1 && x.name == n1) = true
    · rw [if_pos h1]
      by_cases h2 : (x.label == l2 && x.name == n2) = true
      · have h2f : ((f x).label == l2 && (f x).name == n2) = true := by
          rw [(hf x).1, (hf x).2]; exact h2
        rw [find?_cons_pos (fun nn => nn.label == l2 && nn.name == n2) (f x) _ h2f,
          find?_cons_pos (fun nn => nn.label == l2 && nn.name == n2) x _ h2]
        dsimp only [Option.map]
        rw [if_pos h1]
      · have h2e : (x.label == l2 && x.name == n2) = false := by simpa using h2
        have h2f : ((f x).label == l2 && (f x).name == n2) = false := by
          rw [(hf x).1, (hf x).2]; exact h2e
        rw [find?_cons_neg (fun nn => nn.label == l2 && nn.name == n2) (f x) _ h2f,
          find?_cons_neg (fun nn => nn.label == l2 && nn.name == n2) x _ h2e]
        exact ih
    · rw [if_neg h1]
      by_cases h2 : (x.label == l2 && x.name == n2) = true
      · rw [find?_cons_pos (fun nn => nn.label == l2 && nn.name == n2) x _ h2,
          find?_cons_pos (fun nn => nn.label == l2 && nn.name == n2) x _ h2]
        dsimp only [Option.map]
        rw [if_neg h1]
      · have h2e : (x.label == l2 && x.name == n2) = false := by simpa using h2
        rw [find?_cons_neg (fun nn => nn.label == l2 && nn.name == n2) x _ h2e,
          find?_cons_neg (fun nn => nn.label == l2 && nn.name == n2) x _ h2e]
        exact ih

theorem findNode_append_single (ns : List GNode) (m : GNode) (l n : String)
    (hm : (m.label == l && m.name == n) = false) :
    findNode (ns ++ [m]) l n = findNode ns l n := by
  induction ns with
  | nil =>
    simp only [List.nil_append]
    unfold findNode
    rw [find?_cons_neg (fun nn => nn.label == l && nn.name == n) m _ hm]
  | cons x xs ih =>
    unfold findNode at *
    rw [List.cons_append]
    by_cases h2 : (x.label == l && x.name == n) = true
    · rw [find?_cons_pos (fun nn => nn.label == l && nn.name == n) x _ h2,
        find?_cons_pos (fun nn => nn.label == l && nn.name == n) x _ h2]
    · have h2e : (x.label == l && x.name == n) = false := by simpa using h2
      rw [find?_cons_neg (fun nn => nn.label == l && nn.name == n) x _ h2e,
        find?_cons_neg (fun nn => nn.label == l && nn.name == n) x _ h2e]
      exact ih

theorem findNode_append_right (ns ms : List GNode) (l n : String)
    (h : findNode ns l n = none) :
    findNode (ns ++ ms) l n = findNode ms l n := by
  induction ns with
  | nil => rfl
  | cons x xs ih =>
    unfold findNode at *
    rw [List.cons_append]
    by_cases h2 : (x.label == l && x.name == n) = true
    · rw [find?_cons_pos (fun nn => nn.label == l && nn.name == n) x _ h2] at h
      exact absurd h (by simp)
    · have h2e : (x.label == l && x.name == n) = false := by simpa using h2
      rw [find?_cons_neg (fun nn => nn.label == l && nn.name == n) x _ h2e] at h
      rw [find?_cons_neg (fun nn => nn.label == l && nn.name == n) x _ h2e]
      exact ih h

theorem mergeEntityNode_preserves (g : GraphState) (l nm d l2 n2 : String) (hl : l2 ≠ l) :
    findNode (mergeEntityNode g l nm d).nodes l2 n2 = findNode g.nodes l2 n2 := by
  unfold mergeEntityNode
  cases hfind : findNode g.nodes l nm with
  | none =>
    dsimp only
    apply findNode_append_single
    simp only [Bool.and_eq_false_iff, beq_eq_false_iff_ne]
    exact Or.inl (Ne.symm hl)
  | some x =>
    dsimp only
    rw [findNode_setNode g.nodes l nm l2 n2
      (fun n => { n with description := some (n.description.getD d) }) (fun x => ⟨rfl, rfl⟩)]
    cases hf2 : findNode g.nodes l2 n2 with
    | none => rfl
    | some y =>
      have hy := findNode_pred hf2
      simp [hy.1, hl]

theorem mergeEntityNode_creates (g : GraphState) (l nm d : String) :
    (findNode (mergeEntityNode g l nm d).nodes l nm).isSome := by
  unfold mergeEntityNode
  cases hfind : findNode g.nodes l nm with
  | none =>
    dsimp only
    rw [findNode_append_right _ _ _ _ hfind]
    unfold findNode
    rw [find?_cons_pos (fun nn : GNode => nn.label == l && nn.name == nm)
      ⟨l, nm, some d, none⟩ [] (by simp)]
    rfl
  | some x =>
    dsimp only
    rw [findNode_setNode g.nodes l nm l nm
      (fun n => { n with description := some (n.description.getD d) }) (fun x => ⟨rfl, rfl⟩),
      hfind]
    rfl

theorem mergeTopicNode_noop (g : GraphState) (t : String)
    (h : (findNode g.nodes "Topic" t).isSome) : mergeTopicNode g t = g := by
  unfold mergeTopicNode
  cases hfind : findNode g.nodes "Topic" t with
  | none => rw [hfind] at h; simp at h
  | some x => rfl

theorem linkEventTopic_count (g : GraphState) (ev t : String) (nd : GNode) (c : Nat)
    (hev : (findNode g.nodes "Event" ev).isSome)
    (ht : findNode g.nodes "Topic" t = some nd) (hc : nd.event_count = some c) :
    topicCount (linkEventTopic g ev t) t = some (c + 1) := by
  obtain ⟨e, hfe⟩ := Option.isSome_iff_exists.mp hev
  unfold linkEventTopic
  rw [hfe, ht]
  dsimp only
  have hset : findNode (setNode g.nodes "Topic" t (fun n =>
      { n with event_count := some (n.event_count.getD 0 + 1) })) "Topic" t =
      some { nd with event_count := some (c + 1) } := by
    rw [findNode_setNode g.nodes "Topic" t "Topic" t
      (fun n => { n with event_count := some (n.event_count.getD 0 + 1) })
      (fun x => ⟨rfl, rfl⟩), ht]
    have hp := findNode_pred ht
    simp [hp.1, hp.2, hc]
  unfold topicCount
  split
  · dsimp only
    rw [hset]
    rfl
  · dsimp only
    rw [hset]
    rfl

/-- **C6** (amended).  There is no once-only latch or reset: every
further link into a topic whose `event_count` is already at or above
the threshold flags that topic again.  For any graph whose Topic `t`
has `event_count = c ≥ 50`, merging one more Event on `t` returns `t`
in the `exceeded_topics` list once more. -/
theorem overflowed_topic_reflagged (g : GraphState) (nm t d : String) (c : Nat)
    (hnm : pyStrip (pyLower nm) = nm) (hnm0 : nm ≠ "")
    (ht : pyStrip (pyLower t) = t) (ht0 : t ≠ "")
    (hc : topicCount g t = some c) (h50 : 50 ≤ c) :
    (addNodesStep g ⟨nm, "Event", d, t⟩).2 = [t] := by
  obtain ⟨nd, hnd, hcnt⟩ : ∃ nd, findNode g.nodes "Topic" t = some nd ∧
      nd.event_count = some c := by
    unfold topicCount at hc
    cases hfind : findNode g.nodes "Topic" t with
    | none => rw [hfind] at hc; simp at hc
    | some nd => rw [hfind] at hc; exact ⟨nd, rfl, by simpa using hc⟩
  have hety : pyTitle (pyStrip "Event") = "Event" := rfl
  simp only [addNodesStep, hety, hnm, ht, eq_self_iff_true, if_true]
  rw [if_neg (by simp [hnm0])]
  rw [if_pos (by simp [ht0])]
  have htop2 : findNode (mergeEntityNode
      { nodes := g.nodes, edges := g.edges,
        entity_index := dictSet nm ⟨"Event", d, some t⟩ g.entity_index }
      "Event" nm d).nodes "Topic" t = some nd :=
    (mergeEntityNode_preserves _ "Event" nm d "Topic" t (by decide)).trans hnd
  have hev2 := mergeEntityNode_creates
    { nodes := g.nodes, edges := g.edges,
      entity_index := dictSet nm ⟨"Event", d, some t⟩ g.entity_index }
    "Event" nm d
  rw [mergeTopicNode_noop _ t (by rw [htop2]; rfl)]
  rw [linkEventTopic_count _ nm t nd c hev2 htop2 hcnt]
  dsimp only
  rw [if_pos (by omega)]

set_option maxRecDepth 40000 in
/-- **C6** (counterexample).  Linking 51 distinct events to topic `"t"`
flags it once (`state51.2 = ["t"]`), but linking the 52nd event flags
the very same topic again with no reset in between — the source has no
flag/reset mechanism at all — refuting "subsequent links to the same
overflowed topic do not flag it again until the flag is reset". -/
theorem topic_overflow_reflag_counterexample :
    state51.2 = ["t"] ∧ (addNodes state51.1 [mkEv 51]).2 = ["t"] := by
  constructor <;> decide

/-- Witness for the amended C6 statement on a concrete overflowed
graph. -/
theorem overflowed_topic_reflagged_witness :
    (addNodesStep overflowedState ⟨"e1", "Event", "d", "t"⟩).2 = ["t"] :=
  overflowed_topic_reflagged overflowedState "e1" "t" "d" 51 (by decide) (by decide)
    (by decide) (by decide) (by decide) (by decide)

/-- **C5** (counterexample).  `actorChunk1` is merged in one batch and
`eventChunk2` in a later batch; the relationship `relAcrossChunks`
(whose source `alice` is NOT an entity of the current batch) is not
skipped: the `PERFORMED` edge is created, because `entity_index`
accumulates across `_add_nodes` calls rather than holding exactly the
entities of the same chunk. -/
theorem cross_chunk_relationship_not_skipped :
    (addEdges stateTwoChunks [relAcrossChunks]).edges.contains
      ⟨"Actor", "alice", "PERFORMED", "Event", "meet", some "performed desc"⟩ = true := by
  decide

/-- **C5** (amended).  The in-memory `entity_index` accumulates every
entity merged through the builder so far: keys present before an
`_add_nodes` call are still present after it; and `_add_edges` skips a
relationship (leaving the graph completely unchanged — dropped, not
deferred) whenever either endpoint is missing from that accumulated
index. -/
theorem entity_index_accumulates (g : GraphState) (es : List PyEntity) (r : PyRel) (k : String) :
    ((dictGet k g.entity_index).isSome → (dictGet k (addNodes g es).1.entity_index).isSome) ∧
    ((dictGet (pyStrip (pyLower r.source_entity)) g.entity_index = none ∨
      dictGet (pyStrip (pyLower r.target_entity)) g.entity_index = none) →
      addEdgeStep g r = g) :=
  ⟨addNodes_index_persists es g k, addEdgeStep_skips_missing g r⟩

/-- Witness for the amended C5 statement: `alice` (from batch 1) is
still indexed after batch 2, and an edge whose endpoints are unknown to
a fresh builder is skipped. -/
theorem entity_index_accumulates_witness :
    (dictGet "alice" stateTwoChunks.entity_index).isSome = true ∧
    addEdgeStep GraphState.init relAcrossChunks = GraphState.init := by
  constructor
  · exact (entity_index_accumulates (addNodes GraphState.init [actorChunk1]).1 [eventChunk2]
      relAcrossChunks "alice").1 (by decide)
  · exact (entity_index_accumulates GraphState.init [] relAcrossChunks "k").2
      (Or.inl (by decide))

/-- **C8** (counterexample).  A self-referential relationship whose
type is `PERFORMED` (not `RELATED_TO`) passes the filter untouched: the
comprehension at extraction.py lines 153-163 tests `source == target`
only under `relationship_type == "RELATED_TO"`, refuting "drops every
self-referential relationship ... for every relationship type". -/
theorem self_loop_performed_kept :
    filterRelationships [] [selfLoopPerformed] = [selfLoopPerformed] := by decide

/-- **C8** (amended).  The per-chunk filter keeps a relationship iff it
is not a `RELATED_TO` whose target is a same-chunk Topic name or whose
source equals its target; in particular every relationship whose type
is not `RELATED_TO` — self-referential or not — is kept. -/
theorem relationship_filter_spec (entities : List PyEntity) (rels : List PyRel) (r : PyRel) :
    (r ∈ filterRelationships entities rels ↔
      r ∈ rels ∧ ¬(pyUpper (pyStrip r.relationship_type) = "RELATED_TO" ∧
        (pyLower (pyStrip r.target_entity) ∈ topicNames entities ∨
          pyLower (pyStrip r.source_entity) = pyLower (pyStrip r.target_entity)))) ∧
    (pyUpper (pyStrip r.relationship_type) ≠ "RELATED_TO" →
      (r ∈ filterRelationships entities rels ↔ r ∈ rels)) := by
  have hmain : r ∈ filterRelationships entities rels ↔
      r ∈ rels ∧ ¬(pyUpper (pyStrip r.relationship_type) = "RELATED_TO" ∧
        (pyLower (pyStrip r.target_entity) ∈ topicNames entities ∨
          pyLower (pyStrip r.source_entity) = pyLower (pyStrip r.target_entity))) := by
    simp [filterRelationships, List.mem_filter, keepRel, not_or]
    tauto
  exact ⟨hmain, fun h => hmain.trans (and_iff_left (fun hh => absurd hh.1 h))⟩

/-- Witness for the amended C8 statement: the non-`RELATED_TO`
self-loop is kept. -/
theorem relationship_filter_spec_witness :
    selfLoopPerformed ∈ filterRelationships [] [selfLoopPerformed] :=
  ((relationship_filter_spec [] [selfLoopPerformed] selfLoopPerformed).2 (by decide)).mpr
    (by decide)

end PulseApp
